import Mathlib

/-!
Verification of the MAXIMUS consciousness core against its specification.

This file gives a shallow embedding of the two central components:

* `ESGTCoordinator.initiate_esgt` (ignition protocol with admission gates),
  from `consciousness/esgt/coordinator.py`;
* `TIGFabric` (initialize / broadcast / ESGT-mode transitions / stop /
  activate_node), from `consciousness/tig/fabric/core.py`.

Numeric quantities (salience, coherence, connection weights) are embedded
as rationals.  Collaborators whose source files are absent from the
repository snapshot (the `ESGTEvent` model, the frequency limiter, the
Kuramoto network, the health manager, the topology generator) are modelled
from the specification; each such definition is marked
`Modelled from the spec:` in its doc comment.  Asynchronous calls whose
results the coordinator merely consumes (limiter verdict, breaker state,
trigger verdict, recruitment, synchronization outcome, sustain samples)
are passed in as an explicit environment record, which is the standard
shallow embedding of single-threaded cooperative code.
-/

namespace Maximus

/-- Phases of the ESGT ignition protocol.
Modelled from the spec: `esgt/enums.py` is absent from the snapshot; the
phase set is fixed by §4.7 (five protocol phases plus the two terminal
states used by `coordinator.py`). -/
inductive ESGTPhase where
  | prepare
  | synchronize
  | broadcast
  | sustain
  | dissolve
  | complete
  | failed
deriving DecidableEq

/-- The two terminal phases (spec §4.7: `Complete` and `Failed`). -/
def ESGTPhase.isTerminal : Option ESGTPhase → Bool
  | some ESGTPhase.complete => true
  | some ESGTPhase.failed => true
  | _ => false

/-- An ignition event record.
Modelled from the spec: `esgt/models.py` is absent from the snapshot; the
fields follow §3 "IgnitionEvent" (id, content source, target coherence,
current phase, recorded phase sequence, participant count, per-sustain
coherence history, achieved coherence, success flag, failure reason).
The phase starts unset: `coordinator.py` constructs the event and then
performs the first `transition_phase` itself. -/
structure ESGTEvent where
  event_id : String
  content_source : String
  target_coherence : ℚ
  phase : Option ESGTPhase := none
  phase_history : List ESGTPhase := []
  node_count : ℕ := 0
  coherence_history : List ℚ := []
  achieved_coherence : ℚ := 0
  success : Bool := false
  failure_reason : Option String := none
deriving DecidableEq

/-- Phase transition on an event.
Modelled from the spec: §3 invariant "an IgnitionEvent's phase sequence is
monotonic and terminal-once-set" — a transition out of a terminal phase is
a no-op; otherwise the new phase is entered and recorded. -/
def ESGTEvent.transition_phase (p : ESGTPhase) (ev : ESGTEvent) : ESGTEvent :=
  if ESGTPhase.isTerminal ev.phase then ev
  else { ev with phase := some p, phase_history := ev.phase_history ++ [p] }

/-- Finalization of an event.
Modelled from the spec: §7 — every failure outcome is "a Failed event", so
finalizing with `success = false` drives the phase to `failed` (this is
what makes the insufficient-nodes sequence `[Prepare]` then `Failed` of
spec §8.9, where `coordinator.py` calls only `finalize`); finalizing with
`success = true` records the flag. -/
def ESGTEvent.finalize (success : Bool) (reason : String) (ev : ESGTEvent) : ESGTEvent :=
  if success then { ev with success := true, failure_reason := none }
  else
    { ev.transition_phase ESGTPhase.failed with
        success := false, failure_reason := some reason }

/-- Success predicate on a finalized event (spec §4.7 "Finalize"). -/
def ESGTEvent.was_successful (ev : ESGTEvent) : Bool :=
  ev.success

/-- Maximum of a list of rationals, as Python `max` on a nonempty list
(`0` on the empty list, which the caller guards against). -/
def maxQ : List ℚ → ℚ
  | [] => 0
  | q :: qs => qs.foldl max q

/-- Mutable coordinator state, the fields of `ESGTCoordinator.__init__`
that `initiate_esgt` reads or writes (`coordinator.py` lines 69-103).
`min_available_nodes` stands for `self.triggers.min_available_nodes`
(the `TriggerConditions` value, immutable per instance). -/
structure CoordState where
  min_available_nodes : ℕ
  active_events : List String
  event_history : List ESGTEvent
  total_events : ℕ
  successful_events : ℕ
  last_esgt_time : ℚ
  degraded_mode : Bool
  max_concurrent : ℕ
deriving DecidableEq

/-- Environment of one `initiate_esgt` call: the results of the awaited
collaborator calls, in program order (`frequency_limiter.allow()`,
`ignition_breaker.is_open()`, `_check_triggers`, `_recruit_nodes`,
`kuramoto.get_coherence()` after `synchronize`, the coherence samples
appended during `_sustain_coherence`, an optional fault raised inside the
`try` block, and the wall clock at finalization). -/
structure IgnitionEnv where
  freq_allow : Bool
  breaker_open : Bool
  trigger_ok : Bool
  trigger_reason : String
  recruited : ℕ
  sync_coherence : Option ℚ
  sustain_samples : List ℚ
  fault : Option String
  now : ℚ
deriving DecidableEq

/-- Embedding of `ESGTCoordinator._create_blocked_event` (`coordinator.py` lines
134-145): a synthetic event transitioned straight to `failed` and
finalized unsuccessfully with the rejection reason. -/
def create_blocked_event (content_source : String) (target_coherence : ℚ)
    (reason : String) : ESGTEvent :=
  ESGTEvent.finalize false reason
    (ESGTEvent.transition_phase ESGTPhase.failed
      { event_id := "esgt-blocked", content_source := content_source,
        target_coherence := target_coherence })

/-- Conscious-level coherence test.
Modelled from the spec: `kuramoto.py` is absent from the snapshot; §4.5
defines conscious-level synchronization as order parameter `r ≥ 0.50`
(also `ESGTCoordinator.MIN_COHERENCE_THRESHOLD = 0.50`). -/
def is_conscious_level (r : ℚ) : Bool :=
  Rat.divInt 1 2 ≤ r

/-- The admission-gate cascade of `initiate_esgt` (`coordinator.py` lines
156-176), returning the rejection reason of the first failing gate:
frequency limiter, then concurrency cap, then circuit breaker, then the
degraded-mode salience bar. -/
def gateReason (st : CoordState) (env : IgnitionEnv) (salience_total : ℚ) :
    Option String :=
  if ¬ env.freq_allow then some "frequency_limit_exceeded"
  else if st.max_concurrent ≤ st.active_events.length then some "max_concurrent_events"
  else if env.breaker_open then some "circuit_breaker_open"
  else if st.degraded_mode ∧ salience_total < Rat.divInt 85 100 then
    some "degraded_mode_low_salience"
  else none

/-- Embedding of `ESGTCoordinator.initiate_esgt` (`coordinator.py` lines 147-309),
returning the event handed to the caller and the coordinator state after
the call.  The transcription follows the source line by line: the four
admission gates return a blocked event and leave the state untouched; a
constructed event increments `total_events`; a trigger failure is
finalized `failed` and appended to history; the protocol phases then run
in order, with the insufficient-nodes and low-coherence failures returning
WITHOUT appending to history (source lines 208-210 and 230-236), a fault
inside the `try` block being caught, finalized and appended (lines
304-309), and the success path finalizing with the maximum sustain-phase
coherence, appending to history and bumping the success counter (lines
284-295). -/
def initiate_esgt (st : CoordState) (env : IgnitionEnv) (salience_total : ℚ)
    (content_source : String) (target_coherence : ℚ) :
    ESGTEvent × CoordState :=
  match gateReason st env salience_total with
  | some reason => (create_blocked_event content_source target_coherence reason, st)
  | none =>
    let ev0 : ESGTEvent :=
      { event_id := "esgt", content_source := content_source,
        target_coherence := target_coherence }
    let st1 : CoordState := { st with total_events := st.total_events + 1 }
    if ¬ env.trigger_ok then
      let ev := ESGTEvent.finalize false env.trigger_reason
        (ESGTEvent.transition_phase ESGTPhase.failed ev0)
      (ev, { st1 with event_history := st1.event_history ++ [ev] })
    else
      -- PHASE 1: PREPARE
      let ev1 := ESGTEvent.transition_phase ESGTPhase.prepare ev0
      let ev1 := { ev1 with node_count := env.recruited }
      if env.recruited < st1.min_available_nodes then
        (ESGTEvent.finalize false "Insufficient nodes recruited" ev1, st1)
      else
        -- PHASE 2: SYNCHRONIZE
        let ev2 := ESGTEvent.transition_phase ESGTPhase.synchronize ev1
        let r := (env.sync_coherence).getD 0
        if ¬ is_conscious_level r then
          (ESGTEvent.finalize false ("Sync failed: coherence=" ++ toString r) ev2, st1)
        else
          let ev2 := { ev2 with achieved_coherence := r }
          -- PHASE 3: BROADCAST
          let ev3 := ESGTEvent.transition_phase ESGTPhase.broadcast ev2
          match env.fault with
          | some msg =>
            let ev := ESGTEvent.finalize false msg
              (ESGTEvent.transition_phase ESGTPhase.failed ev3)
            (ev, { st1 with event_history := st1.event_history ++ [ev] })
          | none =>
            -- PHASE 4: SUSTAIN
            let ev4 := ESGTEvent.transition_phase ESGTPhase.sustain ev3
            let ev4 := { ev4 with
              coherence_history := ev4.coherence_history ++ env.sustain_samples }
            -- PHASE 5: DISSOLVE
            let ev5 := ESGTEvent.transition_phase ESGTPhase.dissolve ev4
            let ev5 :=
              if ev5.coherence_history.isEmpty then ev5
              else { ev5 with achieved_coherence := maxQ ev5.coherence_history }
            let ev6 := ESGTEvent.finalize true ""
              (ESGTEvent.transition_phase ESGTPhase.complete ev5)
            let st2 : CoordState := { st1 with
              event_history := st1.event_history ++ [ev6],
              last_esgt_time := env.now,
              successful_events :=
                if ev6.was_successful then st1.successful_events + 1
                else st1.successful_events }
            (ev6, st2)

/-- A fresh coordinator state as built by `ESGTCoordinator.__init__`
(empty active set and history, zero counters, normal mode, concurrency
cap `MAX_CONCURRENT_EVENTS = 3`); the trigger minimum-node count is set
to 2 for concrete runs. -/
def freshCoord : CoordState :=
  { min_available_nodes := 2, active_events := [], event_history := [],
    total_events := 0, successful_events := 0, last_esgt_time := 0,
    degraded_mode := false, max_concurrent := 3 }

/-- An environment in which every gate and every protocol phase succeeds. -/
def passEnv : IgnitionEnv :=
  { freq_allow := true, breaker_open := false, trigger_ok := true,
    trigger_reason := "", recruited := 4,
    sync_coherence := some (Rat.divInt 7 10),
    sustain_samples := [Rat.divInt 7 10, Rat.divInt 8 10],
    fault := none, now := 1 }

/-- Run a sequence of `initiate_esgt` calls, collecting the returned
events and threading the coordinator state. -/
def runCalls (st : CoordState) (envs : List IgnitionEnv) :
    List ESGTEvent × CoordState :=
  match envs with
  | [] => ([], st)
  | env :: rest =>
    let (ev, st1) := initiate_esgt st env (Rat.divInt 9 10) "test" (Rat.divInt 7 10)
    let (evs, st2) := runCalls st1 rest
    (ev :: evs, st2)

/-- Count the events rejected with a given failure reason. -/
def countReason (evs : List ESGTEvent) (reason : String) : ℕ :=
  (evs.filter (fun ev => ev.failure_reason = some reason)).length

/-- Environment `passEnv` with the frequency limiter refusing the attempt. -/
def freqBlockEnv : IgnitionEnv :=
  { passEnv with freq_allow := false }

/-- Node states.
Modelled from the spec where the file is absent: §3 lists the variants
Initializing, Active, IgnitionMode (the `esgt_mode` string that
`coordinator.py` matches on), Degraded. -/
inductive NodeState where
  | initializing
  | active
  | esgt_mode
  | degraded
deriving DecidableEq

/-- A simulated link (`TIGConnection` of `tig/fabric/models.py`, absent
from the snapshot; fields from spec §3: remote id, one-way latency in µs,
bandwidth in bits/s, mutable weight defaulting to 1.0, active flag). -/
structure TIGConnection where
  remote_node_id : String
  latency_us : ℚ
  bandwidth_bps : ℕ
  weight : ℚ := 1
  active : Bool := true
deriving DecidableEq

/-- A fabric node (`TIGNode` of `tig/fabric/node.py`, absent from the
snapshot; spec §3: identity, state variant, attention level set by
`activate_node`, and the connection map, embedded as a list keyed by
`remote_node_id`). -/
structure TIGNode where
  id : String
  node_state : NodeState
  attention_level : ℚ := 0
  connections : List TIGConnection := []
deriving DecidableEq

/-- Status of the background initialization task. -/
inductive TaskStatus where
  | running
  | finished
deriving DecidableEq

/-- Topology configuration (`TopologyConfig` of `tig/fabric/config.py`,
absent from the snapshot; the two fields the claims need: target node
count and target edge density, spec §4.1). -/
structure TopologyConfig where
  node_count : ℕ
  target_density : ℚ
deriving DecidableEq

/-- The fabric state: the fields of `TIGFabric.__init__` that the embedded
operations read or write (`core.py` lines 59-75).  `metricsPresent`
stands for `self.metrics` being a live object rather than `None` (as
after `stop`); `monitoring` for the Health Manager's probe loop being
active. -/
structure TIGFabric where
  config : TopologyConfig
  nodes : List TIGNode
  edges : List (ℕ × ℕ)
  metricsPresent : Bool
  initialized : Bool
  initializing : Bool
  init_task : Option TaskStatus
  monitoring : Bool
deriving DecidableEq

/-- A fresh fabric as built by `TIGFabric.__init__`. -/
def freshFabric (cfg : TopologyConfig) : TIGFabric :=
  { config := cfg, nodes := [], edges := [], metricsPresent := false,
    initialized := false, initializing := false, init_task := none,
    monitoring := false }

/-- The per-connection weight adjustment of `enter_esgt_mode`
(`core.py` line 520): `conn.weight = min(conn.weight * 1.5, 2.0)`. -/
def enterWeight (w : ℚ) : ℚ :=
  min (w * (3/2 : ℚ)) 2

/-- The per-connection weight adjustment of `exit_esgt_mode`
(`core.py` line 529): `conn.weight = max(conn.weight / 1.5, 1.0)`. -/
def exitWeight (w : ℚ) : ℚ :=
  max (w / (3/2 : ℚ)) 1

/-- Embedding of `TIGFabric.enter_esgt_mode` (`core.py` lines 508-520): every node
moves to ESGT mode and every connection weight is increased by 1.5×,
capped at 2.0. -/
def enter_esgt_mode (F : TIGFabric) : TIGFabric :=
  { F with nodes := F.nodes.map (fun nd =>
      { nd with
          node_state := NodeState.esgt_mode,
          connections := nd.connections.map (fun c =>
            { c with weight := enterWeight c.weight }) }) }

/-- Embedding of `TIGFabric.exit_esgt_mode` (`core.py` lines 522-529): every node
returns to Active and every connection weight is divided by 1.5, floored
at 1.0. -/
def exit_esgt_mode (F : TIGFabric) : TIGFabric :=
  { F with nodes := F.nodes.map (fun nd =>
      { nd with
          node_state := NodeState.active,
          connections := nd.connections.map (fun c =>
            { c with weight := exitWeight c.weight }) }) }

/-- All connection weights of a fabric, in node order. -/
def connWeights (F : TIGFabric) : List ℚ :=
  (F.nodes.map (fun nd => nd.connections.map (fun c => c.weight))).flatten

/-- Zero-padded node id (`core.py` f-string `tig-node-{v:03d}`). -/
def pad3 (n : ℕ) : String :=
  let s := toString n
  String.mk (List.replicate (3 - s.length) '0') ++ s

/-- Node id string used throughout `core.py`. -/
def nodeIdStr (v : ℕ) : String :=
  "tig-node-" ++ pad3 v

/-- Topology generation.
Modelled from the spec: `tig/fabric/topology.py` is absent from the
snapshot; §4.1 — given a target node count and density, produce a
connected graph on exactly `node_count` vertices with no isolated node,
using randomness for edge placement, failing only on invalid parameters
(node count < 2, density outside (0,1]).  The randomness enters as the
caller-supplied `extraEdges`; a path backbone keeps the graph connected;
density/clustering deviations are recorded, not fatal. -/
def generate (cfg : TopologyConfig) (extraEdges : List (ℕ × ℕ)) :
    Except String (List (ℕ × ℕ)) :=
  if cfg.node_count < 2 then Except.error "node count < 2"
  else if ¬ (0 < cfg.target_density ∧ cfg.target_density ≤ 1) then
    Except.error "density outside (0,1]"
  else
    let backbone := (List.range (cfg.node_count - 1)).map fun i => (i, i + 1)
    let valid := extraEdges.filter fun e =>
      e.1 < cfg.node_count ∧ e.2 < cfg.node_count ∧ e.1 ≠ e.2
    Except.ok (backbone ++ valid)

/-- Embedding of `TIGFabric._instantiate_nodes` (`core.py` lines 257-261): one node in
state Initializing per graph vertex. -/
def instantiate_nodes (n : ℕ) : List TIGNode :=
  (List.range n).map fun v =>
    { id := nodeIdStr v, node_state := NodeState.initializing }

/-- Append one directed connection record to the named node. -/
def addConnection (nodes : List TIGNode) (fromId toId : String) (lat : ℚ)
    (bw : ℕ) : List TIGNode :=
  nodes.map fun nd =>
    if nd.id = fromId then
      { nd with connections := nd.connections ++
          [{ remote_node_id := toId, latency_us := lat, bandwidth_bps := bw }] }
    else nd

/-- Embedding of `TIGFabric._establish_connections` (`core.py` lines 263-284): two
independent connection records per edge, with the randomized
latency/bandwidth supplied by `linkChar`. -/
def establish_connections (linkChar : ℕ → ℕ → ℚ × ℕ)
    (edges : List (ℕ × ℕ)) (nodes : List TIGNode) : List TIGNode :=
  edges.foldl
    (fun acc e =>
      let lat := (linkChar e.1 e.2).1
      let bw := (linkChar e.1 e.2).2
      addConnection
        (addConnection acc (nodeIdStr e.1) (nodeIdStr e.2) lat bw)
        (nodeIdStr e.2) (nodeIdStr e.1) lat bw)
    nodes

/-- Embedding of `TIGFabric.initialize` (`core.py` lines 77-127): fail if already
initialized; generate the topology; instantiate nodes (Initializing);
establish connections; compute metrics (advisory, never fatal — embedded
as `metricsPresent := true`); transition every node to Active; start
health monitoring; mark initialized. -/
def initializeFabric (linkChar : ℕ → ℕ → ℚ × ℕ) (extraEdges : List (ℕ × ℕ))
    (F : TIGFabric) : Except String TIGFabric :=
  if F.initialized then Except.error "Fabric already initialized"
  else
    match generate F.config extraEdges with
    | Except.error e => Except.error e
    | Except.ok es =>
      let nodes0 := instantiate_nodes F.config.node_count
      let nodes1 := establish_connections linkChar es nodes0
      let nodes2 := nodes1.map (fun nd => { nd with node_state := NodeState.active })
      Except.ok { F with
          nodes := nodes2, edges := es, metricsPresent := true,
          initialized := true, monitoring := true }

/-- Sum of the per-node fan-out results, a failed send counting zero
(`core.py` line 425: `sum(r for r in results if isinstance(r, int))`
after `gather(..., return_exceptions=True)`). -/
def reachedCount (F : TIGFabric) (send : String → Except String ℕ) : ℕ :=
  (F.nodes.map fun nd =>
    match send nd.id with
    | Except.ok k => k
    | Except.error _ => 0).sum

/-- Embedding of `TIGFabric.broadcast_global` (`core.py` lines 402-427): raise only on
the uninitialized-fabric misuse; otherwise fan out to every node, isolate
per-node failures, and return the number of nodes reached.  Each node's
`broadcast_to_neighbors` outcome is supplied by the `send` oracle
(`node.py` is absent from the snapshot; spec §4.3 — per-node failures are
isolated and counted). -/
def broadcast_global (F : TIGFabric) (send : String → Except String ℕ) :
    Except String ℕ :=
  if ¬ F.initialized then Except.error "Fabric not initialized"
  else Except.ok (reachedCount F send)

/-- Embedding of `TIGFabric.stop` (`core.py` lines 480-506): cancel a still-running
background initialization, stop health monitoring (Modelled from the
spec: `health.py` is absent; §4.4/§5 — the probe loop is cancelled and
awaited, swallowing cancellation, so stopping an already-stopped manager
is safe), and release node/topology/metrics state.  No branch raises. -/
def stop (F : TIGFabric) : TIGFabric :=
  { F with
      init_task := F.init_task.map (fun _ => TaskStatus.finished),
      monitoring := false, nodes := [], edges := [],
      metricsPresent := false }

/-- Embedding of `TIGFabric.activate_node` (`core.py` lines 453-478): look the node up;
a missing id is a silent no-op; a known node records the activation level,
and a neighbor-propagation broadcast is issued exactly when the level
exceeds 0.5.  The returned flag says whether `broadcast_to_neighbors`
was invoked. -/
def activate_node (F : TIGFabric) (node_id : String) (activation : ℚ) :
    TIGFabric × Bool :=
  match F.nodes.find? (fun nd => nd.id = node_id) with
  | none => (F, false)
  | some _ =>
    ({ F with nodes := F.nodes.map fun nd =>
        if nd.id = node_id then { nd with attention_level := activation }
        else nd },
     decide (Rat.divInt 1 2 < activation))

/-- A one-node fabric whose single connection has weight `3/2`, used to
exhibit the non-restoring ESGT-mode round trip. -/
def cexFabric : TIGFabric :=
  { config := { node_count := 1, target_density := 1 },
    nodes := [{ id := "tig-node-000", node_state := NodeState.active,
                connections := [{ remote_node_id := "tig-node-001",
                                  latency_us := 1,
                                  bandwidth_bps := 10000000000,
                                  weight := 3/2 }] }],
    edges := [], metricsPresent := true, initialized := true,
    initializing := false, init_task := none, monitoring := true }

/-- A two-node initialized fabric for the broadcast and activate
witnesses. -/
def twoNodeFabric : TIGFabric :=
  { config := { node_count := 2, target_density := 1 },
    nodes := [{ id := "tig-node-000", node_state := NodeState.active },
              { id := "tig-node-001", node_state := NodeState.active }],
    edges := [(0, 1)], metricsPresent := true, initialized := true,
    initializing := false, init_task := none, monitoring := true }

/-- Like `cexFabric` but with the default connection weight 1.0. -/
def unitWeightFabric : TIGFabric :=
  { cexFabric with
      nodes := [{ id := "tig-node-000", node_state := NodeState.active,
                  connections := [{ remote_node_id := "tig-node-001",
                                    latency_us := 1,
                                    bandwidth_bps := 10000000000 }] }] }

/-- A send oracle that reaches node 000 and fails on every other node. -/
def demoSend : String → Except String ℕ :=
  fun id =>
    if id = "tig-node-000" then Except.ok 1
    else Except.error "node unreachable"

/-- C1: the claim requires `initiate_esgt` to insert into the coordinator's
active-event set on entering Prepare and remove on finalize, so that with
`max_concurrent = 3` five concurrent calls yield at least two
"max_concurrent_events" rejections.  The code does neither: this theorem
proves that `initiate_esgt` leaves `active_events` exactly as it found it
in every state and environment (the set is only length-checked), and that
consequently five back-to-back calls on a fresh coordinator with cap 3,
all admission inputs passing, produce zero "max_concurrent_events"
rejections and leave the active set empty — refuting the claimed ≥ 2. -/
theorem initiate_esgt_never_tracks_active_events :
    (∀ (st : CoordState) (env : IgnitionEnv) (s : ℚ) (cs : String) (tc : ℚ),
      ((initiate_esgt st env s cs tc).2).active_events = st.active_events) ∧
    countReason (runCalls freshCoord (List.replicate 5 passEnv)).1
      "max_concurrent_events" = 0 ∧
    ((runCalls freshCoord (List.replicate 5 passEnv)).2).active_events = [] := by
  refine ⟨?_, by decide, by decide⟩
  intro st env s cs tc
  dsimp only [initiate_esgt]
  split
  · rfl
  · split_ifs <;> first | rfl | (split <;> rfl)

/-- C2: an attempt that passes the admission gates and the trigger checks
but fails during protocol execution — fewer recruited nodes than the
configured minimum, or post-synchronization coherence below the
conscious-level threshold — comes back finalized as a Failed event, but
the coordinator's event history is left UNCHANGED on both paths
(`coordinator.py` lines 208-210 and 230-236 return without appending),
contradicting the claimed append. -/
theorem protocol_failure_not_appended_to_history (st : CoordState)
    (env : IgnitionEnv) (s : ℚ) (cs : String) (tc : ℚ)
    (hgate : gateReason st env s = none) (htrig : env.trigger_ok = true) :
    (env.recruited < st.min_available_nodes →
      ((initiate_esgt st env s cs tc).1.phase = some ESGTPhase.failed ∧
       (initiate_esgt st env s cs tc).1.success = false ∧
       (initiate_esgt st env s cs tc).1.failure_reason =
         some "Insufficient nodes recruited" ∧
       ((initiate_esgt st env s cs tc).2).event_history = st.event_history)) ∧
    (st.min_available_nodes ≤ env.recruited →
      is_conscious_level ((env.sync_coherence).getD 0) = false →
      ((initiate_esgt st env s cs tc).1.phase = some ESGTPhase.failed ∧
       (initiate_esgt st env s cs tc).1.success = false ∧
       ((initiate_esgt st env s cs tc).2).event_history = st.event_history)) := by
  constructor
  · intro hlt
    dsimp only [initiate_esgt]
    rw [hgate]
    simp only [htrig, not_true, if_neg, ite_false, Bool.false_eq_true,
      not_false_eq_true, ite_true, hlt, if_pos]
    simp [ESGTEvent.finalize, ESGTEvent.transition_phase, ESGTPhase.isTerminal]
  · intro hge hsync
    dsimp only [initiate_esgt]
    rw [hgate]
    simp only [htrig, not_true, Bool.false_eq_true, not_false_eq_true,
      ite_true, ite_false, Nat.not_lt.mpr hge, if_neg, hsync,
      Bool.not_eq_true]
    simp [ESGTEvent.finalize, ESGTEvent.transition_phase, ESGTPhase.isTerminal]

/-- C2 witness: on a fresh coordinator whose trigger configuration demands
2 nodes, an environment recruiting 0 nodes fails the Prepare phase and the
history stays empty. -/
theorem protocol_failure_not_appended_to_history_witness :
    ((initiate_esgt freshCoord { passEnv with recruited := 0 }
        (Rat.divInt 9 10) "test" (Rat.divInt 7 10)).1.failure_reason =
      some "Insufficient nodes recruited") ∧
    ((initiate_esgt freshCoord { passEnv with recruited := 0 }
        (Rat.divInt 9 10) "test" (Rat.divInt 7 10)).2).event_history =
      freshCoord.event_history :=
  have h := protocol_failure_not_appended_to_history freshCoord
    { passEnv with recruited := 0 } (Rat.divInt 9 10) "test" (Rat.divInt 7 10)
    (by decide) (by decide)
  ⟨(h.1 (by decide)).2.2.1, (h.1 (by decide)).2.2.2⟩

/-- C3: an attempt rejected by any of the four admission gates (frequency
limit, concurrency cap, open breaker, degraded-mode low salience) gets the
synthetic blocked event carrying that gate's reason string — a Failed,
unsuccessful event — and the coordinator state is returned untouched, so
nothing is appended to history and `total_events` is not incremented. -/
theorem admission_rejection_synthetic_event (st : CoordState)
    (env : IgnitionEnv) (s : ℚ) (cs : String) (tc : ℚ) (r : String)
    (h : gateReason st env s = some r) :
    initiate_esgt st env s cs tc = (create_blocked_event cs tc r, st) ∧
    (create_blocked_event cs tc r).phase = some ESGTPhase.failed ∧
    (create_blocked_event cs tc r).success = false ∧
    (create_blocked_event cs tc r).failure_reason = some r := by
  refine ⟨?_, ?_, ?_, ?_⟩
  · dsimp only [initiate_esgt]
    rw [h]
  all_goals
    simp [create_blocked_event, ESGTEvent.finalize, ESGTEvent.transition_phase,
      ESGTPhase.isTerminal]

/-- C3 witness: with the frequency limiter refusing, the call returns the
blocked event with reason "frequency_limit_exceeded" and the fresh state
unchanged. -/
theorem admission_rejection_synthetic_event_witness :
    initiate_esgt freshCoord freqBlockEnv (Rat.divInt 9 10) "test"
        (Rat.divInt 7 10) =
      (create_blocked_event "test" (Rat.divInt 7 10)
        "frequency_limit_exceeded", freshCoord) :=
  (admission_rejection_synthetic_event freshCoord freqBlockEnv
    (Rat.divInt 9 10) "test" (Rat.divInt 7 10) "frequency_limit_exceeded"
    (by decide)).1

/-- C4: whenever `initiate_esgt` returns a successful event, the recorded
phase sequence is exactly Prepare, Synchronize, Broadcast, Sustain,
Dissolve, Complete — each entered once, in forward order — the final phase
is Complete, and (terminal-once-set) a phase transition on an event whose
phase is terminal is a no-op. -/
theorem successful_event_phase_sequence (st : CoordState) (env : IgnitionEnv)
    (s : ℚ) (cs : String) (tc : ℚ)
    (h : (initiate_esgt st env s cs tc).1.success = true) :
    ((initiate_esgt st env s cs tc).1.phase_history =
      [ESGTPhase.prepare, ESGTPhase.synchronize, ESGTPhase.broadcast,
       ESGTPhase.sustain, ESGTPhase.dissolve, ESGTPhase.complete] ∧
     (initiate_esgt st env s cs tc).1.phase = some ESGTPhase.complete) ∧
    (∀ (ev : ESGTEvent) (p : ESGTPhase),
      ESGTPhase.isTerminal ev.phase = true →
        ESGTEvent.transition_phase p ev = ev) := by
  refine ⟨?_, ?_⟩
  · revert h
    dsimp only [initiate_esgt]
    split
    · simp [create_blocked_event, ESGTEvent.finalize,
        ESGTEvent.transition_phase, ESGTPhase.isTerminal]
    · split_ifs <;> (try split) <;> intro h <;>
        simp_all [ESGTEvent.finalize, ESGTEvent.transition_phase,
          ESGTPhase.isTerminal]
  · intro ev p hterm
    simp [ESGTEvent.transition_phase, hterm]

/-- C4 witness: the all-pass environment yields a successful event, and
its phase sequence is the six protocol phases in order. -/
theorem successful_event_phase_sequence_witness :
    (initiate_esgt freshCoord passEnv (Rat.divInt 9 10) "test"
        (Rat.divInt 7 10)).1.success = true ∧
    (initiate_esgt freshCoord passEnv (Rat.divInt 9 10) "test"
        (Rat.divInt 7 10)).1.phase_history =
      [ESGTPhase.prepare, ESGTPhase.synchronize, ESGTPhase.broadcast,
       ESGTPhase.sustain, ESGTPhase.dissolve, ESGTPhase.complete] :=
  ⟨by decide,
   (successful_event_phase_sequence freshCoord passEnv (Rat.divInt 9 10)
     "test" (Rat.divInt 7 10) (by decide)).1.1⟩

/-- C5: a successfully finalized event with a non-empty sustain-phase
coherence history carries as achieved coherence the maximum sample of that
history, is appended to the coordinator's event history, and bumps the
success counter by one. -/
theorem successful_finalization_max_coherence (st : CoordState)
    (env : IgnitionEnv) (s : ℚ) (cs : String) (tc : ℚ)
    (h : (initiate_esgt st env s cs tc).1.success = true)
    (hne : (initiate_esgt st env s cs tc).1.coherence_history ≠ []) :
    (initiate_esgt st env s cs tc).1.achieved_coherence =
      maxQ ((initiate_esgt st env s cs tc).1.coherence_history) ∧
    ((initiate_esgt st env s cs tc).2).event_history =
      st.event_history ++ [(initiate_esgt st env s cs tc).1] ∧
    ((initiate_esgt st env s cs tc).2).successful_events =
      st.successful_events + 1 := by
  revert h hne
  dsimp only [initiate_esgt]
  split
  · intro h
    simp [create_blocked_event, ESGTEvent.finalize,
      ESGTEvent.transition_phase, ESGTPhase.isTerminal] at h
  · split_ifs <;> (try split) <;> intro h hne <;>
      simp_all [ESGTEvent.finalize, ESGTEvent.transition_phase,
        ESGTPhase.isTerminal, ESGTEvent.was_successful, List.isEmpty_iff]

/-- C5 witness: the all-pass environment records sustain samples
`[7/10, 8/10]`; the finalized achieved coherence is their maximum `4/5`,
the history grows by that event, and the success counter becomes 1. -/
theorem successful_finalization_max_coherence_witness :
    (initiate_esgt freshCoord passEnv (Rat.divInt 9 10) "test"
        (Rat.divInt 7 10)).1.achieved_coherence =
      maxQ ((initiate_esgt freshCoord passEnv (Rat.divInt 9 10) "test"
        (Rat.divInt 7 10)).1.coherence_history) ∧
    ((initiate_esgt freshCoord passEnv (Rat.divInt 9 10) "test"
        (Rat.divInt 7 10)).2).successful_events = 1 :=
  have h := successful_finalization_max_coherence freshCoord passEnv
    (Rat.divInt 9 10) "test" (Rat.divInt 7 10) (by decide) (by decide)
  ⟨h.1, h.2.2⟩

theorem connWeights_enter (F : TIGFabric) :
    connWeights (enter_esgt_mode F) = (connWeights F).map enterWeight := by
  simp [connWeights, enter_esgt_mode, List.map_flatten, List.map_map,
    Function.comp_def]

theorem connWeights_exit (F : TIGFabric) :
    connWeights (exit_esgt_mode F) = (connWeights F).map exitWeight := by
  simp [connWeights, exit_esgt_mode, List.map_flatten, List.map_map,
    Function.comp_def]

theorem exit_enter_weight (w : ℚ) (h1 : 1 ≤ w) (h2 : w ≤ (4/3 : ℚ)) :
    exitWeight (enterWeight w) = w := by
  unfold enterWeight exitWeight
  have hle : w * (3/2 : ℚ) ≤ 2 := by linarith
  rw [min_eq_left hle]
  have hdiv : w * (3/2 : ℚ) / (3/2 : ℚ) = w := by field_simp
  rw [hdiv]
  exact max_eq_left h1

/-- C6 counterexample: on a fabric whose single connection has weight
`3/2`, entering ESGT mode caps the weight at `2` and exiting divides and
floors it to `4/3`, so the round trip does not restore the prior weight —
the claim's "for every prior weight value" is false. -/
theorem esgt_roundtrip_not_weight_restoring :
    connWeights (exit_esgt_mode (enter_esgt_mode cexFabric)) ≠
      connWeights cexFabric := by
  have hL : connWeights (exit_esgt_mode (enter_esgt_mode cexFabric)) =
      [(4/3 : ℚ)] := by
    simp [cexFabric, connWeights, enter_esgt_mode, exit_esgt_mode,
      enterWeight, exitWeight]
    norm_num
  have hR : connWeights cexFabric = [(3/2 : ℚ)] := by
    simp [cexFabric, connWeights]
  rw [hL, hR]
  intro h
  simp only [List.cons.injEq, and_true] at h
  norm_num at h

/-- C6 (amended): exiting ESGT mode after entering it restores every
connection weight, provided every prior weight lies in `[1, 4/3]` — in
particular for the default weight `1.0`; and the entry-time increase is
bounded by the cap `2.0` for every weight.  Outside `[1, 4/3]` the cap
`min(·, 2)` and the floor `max(·, 1)` make the round trip non-inverting,
as the counterexample shows. -/
theorem esgt_mode_restores_weights_in_range (F : TIGFabric)
    (h : ∀ w ∈ connWeights F, 1 ≤ w ∧ w ≤ (4/3 : ℚ)) :
    connWeights (exit_esgt_mode (enter_esgt_mode F)) = connWeights F ∧
    ∀ w2 ∈ connWeights (enter_esgt_mode F), w2 ≤ 2 := by
  constructor
  · rw [connWeights_exit, connWeights_enter, List.map_map]
    have hpt : ∀ w ∈ connWeights F, (exitWeight ∘ enterWeight) w = w :=
      fun w hw => exit_enter_weight w (h w hw).1 (h w hw).2
    rw [List.map_congr_left hpt]
    simp
  · intro w2 hw2
    rw [connWeights_enter] at hw2
    obtain ⟨w, _, rfl⟩ := List.mem_map.1 hw2
    exact min_le_right _ _

/-- C6 witness: with the default weight `1.0` the round trip restores the
weights exactly. -/
theorem esgt_mode_restores_weights_in_range_witness :
    connWeights (exit_esgt_mode (enter_esgt_mode unitWeightFabric)) =
      connWeights unitWeightFabric :=
  (esgt_mode_restores_weights_in_range unitWeightFabric
    (by
      intro w hw
      simp [unitWeightFabric, cexFabric, connWeights] at hw
      subst hw
      norm_num)).1

theorem addConnection_length (nodes : List TIGNode) (a b : String) (lat : ℚ)
    (bw : ℕ) : (addConnection nodes a b lat bw).length = nodes.length := by
  simp [addConnection]

theorem establish_connections_length (linkChar : ℕ → ℕ → ℚ × ℕ) :
    ∀ (edges : List (ℕ × ℕ)) (nodes : List TIGNode),
      (establish_connections linkChar edges nodes).length = nodes.length := by
  intro edges
  induction edges with
  | nil => intro nodes; rfl
  | cons e rest ih =>
    intro nodes
    simp only [establish_connections, List.foldl_cons] at *
    rw [ih, addConnection_length, addConnection_length]

/-- C7: initializing a fresh fabric with a valid configuration (node
count ≥ 2, density in (0,1]) succeeds, and the resulting fabric has
exactly `node_count` nodes, every one of them Active. -/
theorem initializeFabric_count_and_active (cfg : TopologyConfig)
    (linkChar : ℕ → ℕ → ℚ × ℕ) (extraEdges : List (ℕ × ℕ))
    (h2 : 2 ≤ cfg.node_count) (hd1 : 0 < cfg.target_density)
    (hd2 : cfg.target_density ≤ 1) :
    ∃ F, initializeFabric linkChar extraEdges (freshFabric cfg) =
        Except.ok F ∧
      F.nodes.length = cfg.node_count ∧
      ∀ nd ∈ F.nodes, nd.node_state = NodeState.active := by
  dsimp only [initializeFabric, freshFabric, generate]
  rw [if_neg (by simp)]
  rw [if_neg (by omega), if_neg (by simp [hd1, hd2])]
  refine ⟨_, rfl, ?_, ?_⟩
  · rw [List.length_map, establish_connections_length]
    simp [instantiate_nodes]
  · intro nd hnd
    obtain ⟨pre, _, rfl⟩ := List.mem_map.1 hnd
    rfl

/-- C7 witness: a 3-node configuration with density 1/4 initializes to a
fabric of 3 Active nodes. -/
theorem initializeFabric_count_and_active_witness :
    ∃ F, initializeFabric (fun _ _ => (1, 10000000000)) []
        (freshFabric { node_count := 3, target_density := Rat.divInt 1 4 }) =
        Except.ok F ∧
      F.nodes.length = 3 ∧
      ∀ nd ∈ F.nodes, nd.node_state = NodeState.active :=
  initializeFabric_count_and_active
    { node_count := 3, target_density := Rat.divInt 1 4 }
    (fun _ _ => (1, 10000000000)) [] (by decide) (by decide) (by decide)

/-- C8: on an initialized fabric, `broadcast_global` returns `ok` for
every send oracle — individual node failures are isolated, never aborting
the broadcast — and the returned count is the sum of the successful
per-node fan-out results, failures counting zero. -/
theorem broadcast_global_isolates_failures (F : TIGFabric)
    (send : String → Except String ℕ) (h : F.initialized = true) :
    broadcast_global F send = Except.ok (reachedCount F send) := by
  simp [broadcast_global, h]

/-- C8 witness: on the two-node fabric with a send oracle that fails on
node 001, the broadcast still returns `ok` and counts the one reached
node. -/
theorem broadcast_global_isolates_failures_witness :
    broadcast_global twoNodeFabric demoSend =
      Except.ok (reachedCount twoNodeFabric demoSend) ∧
    reachedCount twoNodeFabric demoSend = 1 :=
  ⟨broadcast_global_isolates_failures twoNodeFabric demoSend (by decide),
   by decide⟩

/-- C9: `stop` is idempotent — a second `stop` right after a first one
produces the identical state and raises nothing (the embedding is a total
function with no error outcome, as no branch of `core.py` lines 480-506
raises) — it applies to any fabric state including a fresh one whose
initialization never started or never completed, and afterwards neither
the monitoring loop nor the background initialization task is running. -/
theorem stop_idempotent_no_background :
    ∀ F : TIGFabric, stop (stop F) = stop F ∧
      (stop F).monitoring = false ∧
      ((stop F).init_task = none ∨
        (stop F).init_task = some TaskStatus.finished) ∧
      (stop (freshFabric F.config)).monitoring = false := by
  intro F
  refine ⟨?_, rfl, ?_, rfl⟩
  · cases h : F.init_task <;> simp [stop, h]
  · cases h : F.init_task <;> simp [stop, h]

/-- C10: `activate_node` with an unknown node id returns the fabric
unchanged with no broadcast and raises nothing; for a known node the
neighbor-propagation broadcast fires exactly when the activation level
exceeds `0.5`. -/
theorem activate_node_unknown_noop (F : TIGFabric) (node_id : String)
    (lvl : ℚ) :
    (F.nodes.find? (fun nd => nd.id = node_id) = none →
      activate_node F node_id lvl = (F, false)) ∧
    (∀ nd, F.nodes.find? (fun n => n.id = node_id) = some nd →
      (activate_node F node_id lvl).2 = decide (Rat.divInt 1 2 < lvl)) := by
  constructor
  · intro h
    simp [activate_node, h]
  · intro nd h
    simp [activate_node, h]

/-- C10 witness: on the two-node fabric, an unknown id is a no-op, and
activating node 000 at level `7/10 > 1/2` triggers the broadcast. -/
theorem activate_node_unknown_noop_witness :
    activate_node twoNodeFabric "tig-node-099" (Rat.divInt 7 10) =
      (twoNodeFabric, false) ∧
    (activate_node twoNodeFabric "tig-node-000" (Rat.divInt 7 10)).2 =
      decide (Rat.divInt 1 2 < Rat.divInt 7 10) :=
  ⟨(activate_node_unknown_noop twoNodeFabric "tig-node-099"
      (Rat.divInt 7 10)).1 (by decide),
   (activate_node_unknown_noop twoNodeFabric "tig-node-000"
      (Rat.divInt 7 10)).2
     { id := "tig-node-000", node_state := NodeState.active } (by decide)⟩

end Maximus
